import Mathlib

/-!
Verification development for the REClassroom Turn Orchestration Engine.

This file gives a shallow embedding of the core turn-orchestration code
(reclassroom/core/agent_utils.py and reclassroom/core/orchestration.py) and
proves or refutes the frozen behavioural claims about it.

Modelling conventions:
- Python dicts used as JSON objects become association lists
  (`List (String × _)`); key order is the JSON object order.
- Python strings become Lean `String`; `str.lower()` is `String.toLower`,
  `str.strip()` is `String.trim`, and the Python substring operator
  `needle in hay` is `pyIn needle hay` below.
- The OpenAI completion call is the only external effect; it is abstracted by
  an oracle argument of type `Except String α`: `Except.error e` models the
  call (or the subsequent `json.loads`) raising an exception with message `e`,
  and `Except.ok v` models a successful call whose (parsed) content is `v`.
  The prompt string handed to the service does not influence any modelled
  control flow, so it is not reconstructed except where a claim mentions it
  (`reason_instruction`).
- A Python function that can raise to its caller is modelled with an
  `Except String _` result; a dict returned with some keys absent is modelled
  with `Option` fields (`none` = key absent).
-/

namespace REClassroom

/-- Python substring containment on character lists: true iff the needle
occurs contiguously inside the hay (the empty needle always matches). -/
def pyInChars (needle : List Char) : List Char → Bool
  | [] => needle.isEmpty
  | c :: rest => needle.isPrefixOf (c :: rest) || pyInChars needle rest

/-- The Python expression `needle in hay` on strings. -/
def pyIn (needle hay : String) : Bool := pyInChars needle.data hay.data

/-- ASCII lower-casing of one character. -/
def lowerChar (c : Char) : Char :=
  if 65 ≤ c.toNat ∧ c.toNat ≤ 90 then Char.ofNat (c.toNat + 32) else c

/-- Python `str.lower()` (ASCII case folding, which is all the code relies
on), implemented over the character list so that it computes by reduction. -/
def pyLower (s : String) : String := ⟨s.data.map lowerChar⟩

/-- The whitespace class stripped by Python `str.strip()`. -/
def pyIsSpace (c : Char) : Bool :=
  c == ' ' || c == '\t' || c == '\n' || c == '\r' ||
    c == Char.ofNat 11 || c == Char.ofNat 12

/-- Python `str.strip()`: drop whitespace from both ends. -/
def pyStrip (s : String) : String :=
  ⟨((s.data.dropWhile pyIsSpace).reverse.dropWhile pyIsSpace).reverse⟩

/-- Split a character list at every occurrence of the separator. -/
def splitChars (sep : Char) : List Char → List (List Char)
  | [] => [[]]
  | c :: rest =>
    let r := splitChars sep rest
    if c = sep then [] :: r
    else
      match r with
      | [] => [[c]]
      | h :: t => (c :: h) :: t

/-- Python `str.split(",")`. -/
def pySplitComma (s : String) : List String :=
  (splitChars ',' s.data).map (fun l => ⟨l⟩)

/-- A single-quote character, used when rebuilding Python f-string messages. -/
def sq : String := String.singleton (Char.ofNat 39)

/-- One stakeholder configuration dict. Only the `role` key is read by the
orchestration code; the persona attributes are carried opaquely. -/
structure StakeholderConfig where
  role : String
  attributes : List (String × String) := []
deriving DecidableEq, Repr

/-- One dialogue-history message dict `{"role": ..., "content": ...}`. -/
structure Msg where
  role : String
  content : String
deriving DecidableEq, Repr

/-- One elicited-requirement dict; the Conflict Checker reads only
`requirement`. -/
structure Requirement where
  requirement : String
  source : String := ""
  priority : String := ""
  category : String := ""
deriving DecidableEq, Repr

/-- One value of the negotiation-status mapping: the `{"status", "reason"}`
object the conflict prompts ask the service for. -/
structure ConflictEntry where
  status : String
  reason : String
deriving DecidableEq, Repr

/-- The GraphState TypedDict from reclassroom/core/graph_state.py.
`difficulty_level` is `Option` because the code reads it with `dict.get`
(absent key = `none`); `ambiguity_history` is `Option` because the code
explicitly tests `not in state or is None`; `current_ambiguity_score` may be
unset before the first scoring pass. -/
structure GraphState where
  project_context : String
  stakeholders : List StakeholderConfig
  dialogue_history : List Msg
  turn_roster : List String
  is_concluding_turn : Bool
  ai_response_style : String
  negotiation_status : List (String × ConflictEntry)
  elicited_requirements : List Requirement
  current_ambiguity_score : Option Int
  ambiguity_score_reason : String
  ambiguity_history : Option (List Int)
  difficulty_level : Option String
deriving DecidableEq, Repr

/-- The dict returned by `generate_agent_response`: it always carries
`dialogue_history`, and carries `turn_roster` only on the paths that pop the
roster (`none` models the key being absent from the returned dict). -/
structure AgentResult where
  dialogue_history : List Msg
  turn_roster : Option (List String)
deriving DecidableEq, Repr

/-- agent_utils.py lines 9-74 (`generate_agent_response`). The completion
oracle stands for the `client.chat.completions.create` call; the persona
prompt fed to it does not affect the state transition and is abstracted. -/
def generate_agent_response (oracle : Except String String) (state : GraphState) :
    AgentResult :=
  match state.turn_roster with
  | [] =>
    { dialogue_history := state.dialogue_history ++
        [⟨"system", "System Error: generate_agent_response called with an empty turn_roster."⟩],
      turn_roster := none }
  | speaker :: rest =>
    match state.stakeholders.find? (fun s => s.role == speaker) with
    | none =>
      { dialogue_history := state.dialogue_history ++
          [⟨"system", "System Error: Could not find configuration for stakeholder " ++
            sq ++ speaker ++ sq ++ "."⟩],
        turn_roster := none }
    | some _stakeholder_config =>
      match oracle with
      | .ok response_text =>
        { dialogue_history := state.dialogue_history ++ [⟨speaker, response_text⟩],
          turn_roster := some rest }
      | .error e =>
        { dialogue_history := state.dialogue_history ++
            [⟨"system", "Error for " ++ speaker ++ ": " ++ e⟩],
          turn_roster := some rest }

/-- agent_utils.py lines 86-89: the fixed broadcast-greeting phrase list. -/
def general_greetings : List String :=
  ["hi all", "hello all", "hi everyone", "hello everyone", "hey everyone",
   "how are you", "what do you all think", "your initial thoughts"]

/-- agent_utils.py line 91: the rule-based broadcast test applied to the
latest message content — any of the eight phrases as a substring of the
lowercased, trimmed message, or exact equality with a bare greeting word. -/
def broadcastCheck (content : String) : Bool :=
  let student_message := pyStrip (pyLower content)
  general_greetings.any (fun greeting => pyIn greeting student_message) ||
    ["hi", "hello", "hey"].contains student_message

/-- The JSON value found under the "roster" key of the routing response:
either a string or a list (of strings, after the `str(choice)` coercion). -/
inductive RosterValue where
  | rstr : String → RosterValue
  | rlist : List String → RosterValue
deriving DecidableEq, Repr

/-- Python truthiness test `not roster_value` for a present roster value. -/
def RosterValue.falsy : RosterValue → Bool
  | .rstr s => s == ""
  | .rlist l => l.isEmpty

/-- agent_utils.py lines 134-138: normalize the roster value to a list of
candidate strings (split a comma-joined string, strip each entry). -/
def splitChoices : RosterValue → List String
  | .rstr s => (pySplitComma s).map pyStrip
  | .rlist l => l.map pyStrip

/-- The parsed JSON object of the routing completion; both keys are read
with `dict.get`, so each may be absent. -/
structure RouterResponse where
  roster : Option RosterValue
  is_concluding : Option Bool
deriving DecidableEq, Repr

/-- agent_utils.py lines 141-147, inner loop: scan the official roles for one
candidate `choice`, appending every case-insensitive superstring role not
already collected. -/
def addMatches (choice : String) (stakeholder_roles validated : List String) :
    List String :=
  stakeholder_roles.foldl
    (fun validated_choices official_role =>
      if pyIn (pyLower choice) (pyLower official_role) = true ∧
          official_role ∉ validated_choices
      then validated_choices ++ [official_role]
      else validated_choices)
    validated

/-- agent_utils.py lines 141-147: the full fuzzy-match loop over the
candidate list, starting from an empty `validated_choices`. -/
def fuzzyMatch (llm_choices stakeholder_roles : List String) : List String :=
  llm_choices.foldl
    (fun validated_choices choice => addMatches choice stakeholder_roles validated_choices)
    []

/-- The pair returned by `get_routing_choice` on its normal paths. -/
structure RoutingChoice where
  roster : List String
  is_concluding : Bool
deriving DecidableEq, Repr

/-- agent_utils.py lines 76-157 (`get_routing_choice`). The result also
counts the completion-service calls made (0 on the rule-based broadcast path,
1 otherwise); `Except.error` models the uncaught IndexError raised by
`history[-1]` on an empty dialogue history, before the try block. -/
def get_routing_choice (oracle : Except String RouterResponse) (state : GraphState) :
    Except String (RoutingChoice × Nat) :=
  match state.dialogue_history.getLast? with
  | none => .error "IndexError: list index out of range"
  | some last =>
    let stakeholder_roles := state.stakeholders.map StakeholderConfig.role
    if broadcastCheck last.content then
      .ok (⟨stakeholder_roles, false⟩, 0)
    else
      match oracle with
      | .error _e => .ok (⟨["END"], true⟩, 1)
      | .ok response_data =>
        let is_concluding := response_data.is_concluding.getD false
        match response_data.roster with
        | none => .ok (⟨["END"], true⟩, 1)
        | some roster_value =>
          if roster_value.falsy then .ok (⟨["END"], true⟩, 1)
          else
            let llm_choices := splitChoices roster_value
            let validated_choices := fuzzyMatch llm_choices stakeholder_roles
            if validated_choices.isEmpty then .ok (⟨["END"], true⟩, 1)
            else .ok (⟨validated_choices, is_concluding⟩, 1)

/-- agent_utils.py lines 178-181: the difficulty-dependent reasoning rule
embedded into the conflict-check prompt. -/
def reason_instruction (difficulty : String) : String :=
  if difficulty == "Easy (Tutor Mode)" then
    "For \"Disputed\" status, provide a brief, objective explanation of why these requirements conflict with each other."
  else
    "For \"Disputed\" status, the reason must be an empty string \"\"."

/-- agent_utils.py lines 159-229 (`conflict_check_agent`), returning the
`negotiation_status` value of the update dict. The oracle stands for the
completion call plus `json.loads`; its `ok` payload is the parsed JSON
object, returned verbatim by the code. -/
def conflict_check_agent (oracle : Except String (List (String × ConflictEntry)))
    (state : GraphState) : List (String × ConflictEntry) :=
  let difficulty := state.difficulty_level.getD "Easy (Tutor Mode)"
  if difficulty == "Hard (Expert Mode)" then
    state.negotiation_status
  else
    match state.elicited_requirements with
    | [] => []
    | _ :: _ =>
      match oracle with
      | .ok new_status => new_status
      | .error _e => state.negotiation_status

/-- The parsed JSON object of the ambiguity completion; both keys are read
with `dict.get` and may be absent. -/
structure AmbResponse where
  score : Option Int
  reason : Option String
deriving DecidableEq, Repr

/-- agent_utils.py lines 232-290 (`ambiguity_scorer_agent`). The function
returns the whole mutated state; `Except.error` models only the uncaught
IndexError of `dialogue_history[-1]` on an empty history — every completion
failure is caught inside and absorbed into the returned state. -/
def ambiguity_scorer_agent (oracle : Except String AmbResponse) (state : GraphState) :
    Except String GraphState :=
  match state.dialogue_history.getLast? with
  | none => .error "IndexError: list index out of range"
  | some _student_message =>
    match oracle with
    | .ok response_data =>
      let score := response_data.score.getD 10
      let reason := response_data.reason.getD "No reason provided."
      .ok { state with
        current_ambiguity_score := some score,
        ambiguity_score_reason := reason,
        ambiguity_history := some (state.ambiguity_history.getD [] ++ [score]) }
    | .error e =>
      .ok { state with
        current_ambiguity_score := some 10,
        ambiguity_score_reason := "An error occurred during analysis: " ++ e,
        ambiguity_history := some (state.ambiguity_history.getD [] ++ [10]) }

/-- Target of the main loop branch point (orchestration.py lines 50-58):
either the LangGraph END sentinel or the "agent_turn" node. -/
inductive LoopTarget where
  | endTurn
  | agentTurn
deriving DecidableEq, Repr

/-- orchestration.py lines 50-58 (`conditional_router`). -/
def conditional_router (state : GraphState) : LoopTarget :=
  match state.turn_roster with
  | [] => .endTurn
  | first :: _ => if first == "END" then .endTurn else .agentTurn

/-- Target of the conditional entry point (orchestration.py lines 60-67). -/
inductive EntryTarget where
  | router
  | ambiguity_check
deriving DecidableEq, Repr

/-- orchestration.py lines 60-67 (`conditional_entry_router`);
`state.get` without a default makes an absent difficulty non-expert. -/
def conditional_entry_router (state : GraphState) : EntryTarget :=
  if state.difficulty_level == some "Hard (Expert Mode)" then .router
  else .ambiguity_check

/-- Target of the post-agent conditional edge (orchestration.py line 114). -/
inductive PostAgentTarget where
  | conflict_check
  | main_loop_router
deriving DecidableEq, Repr

/-- The lambda at orchestration.py line 114: after an agent speaks, go to
conflict_check unless the difficulty is the expert tier. -/
def post_agent_router (state : GraphState) : PostAgentTarget :=
  if state.difficulty_level == some "Hard (Expert Mode)" then .main_loop_router
  else .conflict_check

/-- orchestration.py lines 29-38 (`agent_node`): merge the update dict of
`generate_agent_response` into the graph state. Reading the `turn_roster`
key of a dict that lacks it raises KeyError, modelled as `Except.error`. -/
def agent_node (oracle : Except String String) (state : GraphState) :
    Except String GraphState :=
  let response := generate_agent_response oracle state
  match response.turn_roster with
  | none => .error "KeyError: turn_roster"
  | some roster =>
    .ok { state with dialogue_history := response.dialogue_history, turn_roster := roster }

/-- orchestration.py lines 40-46 (`conflict_check_node`): merge the conflict
update into the state. -/
def conflict_check_node (oracle : Except String (List (String × ConflictEntry)))
    (state : GraphState) : GraphState :=
  { state with negotiation_status := conflict_check_agent oracle state }

/-- Per-call outcomes of the completion service during one turn, indexed by
the loop iteration in which the call is made. -/
structure TurnOracles where
  agent : Nat → Except String String
  conflict : Nat → Except String (List (String × ConflictEntry))

/-- One post-agent step of the graph (the conditional edge at
orchestration.py lines 111-119 followed, in the non-expert branch, by
`conflict_check_node`). -/
def post_agent_step (oracle : Except String (List (String × ConflictEntry)))
    (state : GraphState) : GraphState :=
  match post_agent_router state with
  | .conflict_check => conflict_check_node oracle state
  | .main_loop_router => state

/-- The discussion loop of the compiled graph, entered at `main_loop_router`
after the router has seeded the roster: branch on `conditional_router`, run
`agent_node`, take the post-agent edge and repeat. Returns the final state
together with the number of agent_turn transitions taken; `fuel` bounds the
recursion (the graph itself has no such bound, which is exactly what the
liveness analysis is about), and an `Except.error` result reproduces an
exception escaping a node. -/
def run_main_loop (oracles : TurnOracles) :
    Nat → Nat → GraphState → Except String (GraphState × Nat)
  | 0, _, _ => .error "recursion limit exceeded"
  | fuel + 1, k, state =>
    match conditional_router state with
    | LoopTarget.endTurn => .ok (state, 0)
    | LoopTarget.agentTurn =>
      match agent_node (oracles.agent k) state with
      | .error e => .error e
      | .ok state1 =>
        match run_main_loop oracles fuel (k + 1) (post_agent_step (oracles.conflict k) state1) with
        | .error e => .error e
        | .ok (finalState, n) => .ok (finalState, n + 1)

/-- A neutral graph state used as the template for the concrete test states
below. -/
def baseState : GraphState :=
  { project_context := "Library system scenario",
    stakeholders := [],
    dialogue_history := [],
    turn_roster := [],
    is_concluding_turn := false,
    ai_response_style := "Normal",
    negotiation_status := [],
    elicited_requirements := [],
    current_ambiguity_score := none,
    ambiguity_score_reason := "",
    ambiguity_history := none,
    difficulty_level := some "Easy (Tutor Mode)" }

/-- A state whose roster head has no matching stakeholder configuration. -/
def c1_state : GraphState :=
  { baseState with
    dialogue_history := [⟨"student", "please introduce the project"⟩],
    turn_roster := ["Ghost Stakeholder"] }

/-- The same configuration-failure state, used for the liveness analysis. -/
def c2_bad_state : GraphState :=
  { baseState with
    dialogue_history := [⟨"student", "who owns the budget"⟩],
    turn_roster := ["Ghost Stakeholder"] }

/-- Completion outcomes in which every call succeeds. -/
def c2_oracles : TurnOracles :=
  { agent := fun _ => .ok "a reply", conflict := fun _ => .ok [] }

/-- A state whose single roster entry names a configured stakeholder. -/
def c2_good_state : GraphState :=
  { baseState with
    stakeholders := [⟨"Librarian", []⟩],
    dialogue_history := [⟨"student", "who owns the budget"⟩],
    turn_roster := ["Librarian"] }

/-- Completion outcomes in which every call fails. -/
def c2_failing_oracles : TurnOracles :=
  { agent := fun _ => .error "rate limited",
    conflict := fun _ => .error "rate limited" }

/-- A state for the reverse-direction fuzzy-match test: one official role,
latest message not a broadcast greeting. -/
def c3_state : GraphState :=
  { baseState with
    stakeholders := [⟨"Head Librarian", []⟩],
    dialogue_history := [⟨"student", "who manages the catalog"⟩] }

/-- A routing response whose candidate strictly contains the official role. -/
def c3_oracle : Except String RouterResponse :=
  .ok ⟨some (.rstr "The Head Librarian of the university"), some false⟩

/-- The state of the fuzzy-routing example in the claim. -/
def c3_example_state : GraphState :=
  { baseState with
    stakeholders := [⟨"Head Librarian", []⟩, ⟨"Director of IT Security", []⟩],
    dialogue_history := [⟨"student", "please compare your plans"⟩] }

/-- The routing response of the fuzzy-routing example in the claim. -/
def c3_example_oracle : Except String RouterResponse :=
  .ok ⟨some (.rstr "IT Security, Librarian"), some false⟩

/-- A hint-mode state with two conflicting requirements elicited. -/
def c4_state : GraphState :=
  { baseState with
    difficulty_level := some "Medium (Hint Mode)",
    elicited_requirements :=
      [⟨"The button must be green", "Librarian", "High", "UI"⟩,
       ⟨"The button must be blue", "Director of IT Security", "High", "UI"⟩] }

/-- A parsed conflict-check response in which the service supplies non-empty
reasons for Disputed entries. -/
def c4_oracle : Except String (List (String × ConflictEntry)) :=
  .ok [("The button must be green",
          ⟨"Disputed", "conflicts with the blue button requirement"⟩),
       ("The button must be blue",
          ⟨"Disputed", "conflicts with the green button requirement"⟩)]

/-- A tutor-mode state with a single elicited requirement. -/
def c5_state : GraphState :=
  { baseState with
    elicited_requirements :=
      [⟨"The system must support dark mode", "Librarian", "Low", "UI"⟩] }

/-- A parsed conflict-check response keyed by a string that is not among the
elicited requirements. -/
def c5_oracle : Except String (List (String × ConflictEntry)) :=
  .ok [("A completely unrelated key", ⟨"Agreed", ""⟩)]

/-- A state with a prior ambiguity history and a latest student message. -/
def c6_state : GraphState :=
  { baseState with
    dialogue_history := [⟨"student", "what are the security requirements"⟩],
    ambiguity_history := some [4] }

/-- A state whose latest message is not a broadcast greeting. -/
def c7_state : GraphState :=
  { baseState with
    stakeholders := [⟨"Librarian", []⟩],
    dialogue_history := [⟨"student", "what is the budget"⟩] }

/-- An expert-mode state with a pre-existing negotiation status. -/
def c8_state : GraphState :=
  { baseState with
    difficulty_level := some "Hard (Expert Mode)",
    negotiation_status := [("The system must support dark mode", ⟨"Agreed", ""⟩)],
    elicited_requirements :=
      [⟨"The system must support dark mode", "Librarian", "Low", "UI"⟩] }

/-- The broadcast-rule state of the claim: message "hi everyone" and the two
stakeholders in configured order. -/
def c9_state : GraphState :=
  { baseState with
    stakeholders := [⟨"Librarian", []⟩, ⟨"IT Security", []⟩],
    dialogue_history := [⟨"student", "hi everyone"⟩] }

/-- A state whose latest message merely contains the phrase "how are you"
inside a longer, addressed question. -/
def c10_state : GraphState :=
  { baseState with
    stakeholders := [⟨"Librarian", []⟩, ⟨"IT Security", []⟩],
    dialogue_history :=
      [⟨"student", "IT Security, how are you planning to secure the API?"⟩] }

/-- A routing oracle that would fail if it were ever consulted. -/
def c10_oracle : Except String RouterResponse := .error "service unavailable"

/-- Unfolding one official role in the inner fuzzy-match loop. -/
theorem addMatches_cons (choice role : String) (roles validated : List String) :
    addMatches choice (role :: roles) validated =
      addMatches choice roles
        (if pyIn (pyLower choice) (pyLower role) = true ∧ role ∉ validated
         then validated ++ [role] else validated) := rfl

/-- Membership in the inner fuzzy-match loop: a role is collected iff it was
already collected or it is scanned and the candidate is a case-insensitive
substring of it. -/
theorem mem_addMatches (choice : String) (roles : List String) (r : String) :
    ∀ validated : List String,
      r ∈ addMatches choice roles validated ↔
        r ∈ validated ∨ (r ∈ roles ∧ pyIn (pyLower choice) (pyLower r) = true) := by
  induction roles with
  | nil => intro validated; simp [addMatches]
  | cons role roles ih =>
    intro validated
    rw [addMatches_cons, ih]
    by_cases hc : pyIn (pyLower choice) (pyLower role) = true ∧ role ∉ validated
    · rw [if_pos hc]
      simp only [List.mem_append, List.mem_singleton, List.mem_cons,
        List.not_mem_nil, or_false]
      constructor
      · rintro ((hv | hrole) | ⟨hmem, hpy⟩)
        · exact Or.inl hv
        · exact Or.inr ⟨Or.inl hrole, hrole ▸ hc.1⟩
        · exact Or.inr ⟨Or.inr hmem, hpy⟩
      · rintro (hv | ⟨hrole | hmem, hpy⟩)
        · exact Or.inl (Or.inl hv)
        · exact Or.inl (Or.inr hrole)
        · exact Or.inr ⟨hmem, hpy⟩
    · rw [if_neg hc]
      simp only [List.mem_cons]
      constructor
      · rintro (hv | ⟨hmem, hpy⟩)
        · exact Or.inl hv
        · exact Or.inr ⟨Or.inr hmem, hpy⟩
      · rintro (hv | ⟨hrole | hmem, hpy⟩)
        · exact Or.inl hv
        · subst hrole
          rcases not_and_or.mp hc with h1 | h2
          · exact absurd hpy h1
          · exact Or.inl (not_not.mp h2)
        · exact Or.inr ⟨hmem, hpy⟩

/-- The inner fuzzy-match loop never introduces duplicates. -/
theorem nodup_addMatches (choice : String) (roles : List String) :
    ∀ validated : List String, validated.Nodup →
      (addMatches choice roles validated).Nodup := by
  induction roles with
  | nil => intro validated h; simpa [addMatches] using h
  | cons role roles ih =>
    intro validated h
    rw [addMatches_cons]
    by_cases hc : pyIn (pyLower choice) (pyLower role) = true ∧ role ∉ validated
    · rw [if_pos hc]
      refine ih _ ?_
      simp [List.nodup_append, h, hc.2]
    · rw [if_neg hc]
      exact ih _ h

/-- Membership in the outer fuzzy-match loop, generalized over the
accumulator. -/
theorem mem_fuzzyAux (roles : List String) (r : String) (choices : List String) :
    ∀ validated : List String,
      r ∈ choices.foldl (fun v c => addMatches c roles v) validated ↔
        r ∈ validated ∨
          (r ∈ roles ∧ ∃ c ∈ choices, pyIn (pyLower c) (pyLower r) = true) := by
  induction choices with
  | nil => intro validated; simp
  | cons c cs ih =>
    intro validated
    rw [List.foldl_cons, ih, mem_addMatches]
    simp only [List.mem_cons]
    constructor
    · rintro ((hv | ⟨hmem, hpy⟩) | ⟨hmem, c', hc', hpy⟩)
      · exact Or.inl hv
      · exact Or.inr ⟨hmem, c, Or.inl rfl, hpy⟩
      · exact Or.inr ⟨hmem, c', Or.inr hc', hpy⟩
    · rintro (hv | ⟨hmem, c', hc' | hc', hpy⟩)
      · exact Or.inl (Or.inl hv)
      · exact Or.inl (Or.inr ⟨hmem, hc' ▸ hpy⟩)
      · exact Or.inr ⟨hmem, c', hc', hpy⟩

/-- Membership characterization of the fuzzy matcher: an official role is on
the validated roster iff some candidate, lowercased, occurs as a substring of
the lowercased role (candidate-in-role direction only). -/
theorem mem_fuzzyMatch (choices roles : List String) (r : String) :
    r ∈ fuzzyMatch choices roles ↔
      r ∈ roles ∧ ∃ c ∈ choices, pyIn (pyLower c) (pyLower r) = true := by
  rw [fuzzyMatch, mem_fuzzyAux]
  simp

/-- The validated roster produced by the fuzzy matcher has no duplicates. -/
theorem nodup_fuzzyMatch (choices roles : List String) :
    (fuzzyMatch choices roles).Nodup := by
  rw [fuzzyMatch]
  have haux : ∀ (cs : List String) (validated : List String), validated.Nodup →
      (cs.foldl (fun v c => addMatches c roles v) validated).Nodup := by
    intro cs
    induction cs with
    | nil => intro validated h; simpa using h
    | cons c cs ih =>
      intro validated h
      rw [List.foldl_cons]
      exact ih _ (nodup_addMatches c roles validated h)
  exact haux choices [] List.nodup_nil

/-- A speaker with a configured role is found by the `next(...)` lookup. -/
theorem find?_role_eq_some {stakeholders : List StakeholderConfig} {speaker : String}
    (h : ∃ s ∈ stakeholders, s.role = speaker) :
    ∃ cfg, stakeholders.find? (fun s => s.role == speaker) = some cfg := by
  have hs : (stakeholders.find? (fun s => s.role == speaker)).isSome = true := by
    rw [List.find?_isSome]
    obtain ⟨s, hs, hr⟩ := h
    exact ⟨s, hs, by simp [hr]⟩
  exact Option.isSome_iff_exists.mp hs

/-- With a configured speaker at the head of the roster, the Response
Generator pops the head regardless of the completion outcome. -/
theorem generate_pops (oracle : Except String String) (state : GraphState)
    (speaker : String) (rest : List String)
    (hr : state.turn_roster = speaker :: rest)
    (hcfg : ∃ s ∈ state.stakeholders, s.role = speaker) :
    (generate_agent_response oracle state).turn_roster = some rest := by
  obtain ⟨cfg, hfind⟩ := find?_role_eq_some hcfg
  unfold generate_agent_response
  rw [hr]
  simp only []
  rw [hfind]
  cases oracle <;> rfl

/-- With a configured speaker at the head of the roster, the agent node
succeeds and shortens the roster by exactly one. -/
theorem agent_node_ok (oracle : Except String String) (state : GraphState)
    (speaker : String) (rest : List String)
    (hr : state.turn_roster = speaker :: rest)
    (hcfg : ∃ s ∈ state.stakeholders, s.role = speaker) :
    agent_node oracle state =
      .ok { state with
        dialogue_history := (generate_agent_response oracle state).dialogue_history,
        turn_roster := rest } := by
  simp only [agent_node]
  rw [generate_pops oracle state speaker rest hr hcfg]

/-- The post-agent edge (with or without the conflict check) never touches
the roster or the stakeholder list. -/
theorem post_agent_step_preserves
    (oracle : Except String (List (String × ConflictEntry))) (state : GraphState) :
    (post_agent_step oracle state).turn_roster = state.turn_roster ∧
    (post_agent_step oracle state).stakeholders = state.stakeholders := by
  unfold post_agent_step
  cases post_agent_router state <;> simp [conflict_check_node]

/-- Liveness of the discussion loop: whenever every roster entry is the
sentinel or a configured role, the loop reaches the terminal branch using at
most one agent_turn transition per roster entry, for any completion
outcomes. -/
theorem run_main_loop_ok (oracles : TurnOracles) :
    ∀ (fuel k : Nat) (state : GraphState),
      (∀ r ∈ state.turn_roster, r = "END" ∨ ∃ s ∈ state.stakeholders, s.role = r) →
      state.turn_roster.length < fuel →
      ∃ finalState n, run_main_loop oracles fuel k state = .ok (finalState, n) ∧
        n ≤ state.turn_roster.length ∧
        (finalState.turn_roster = [] ∨ finalState.turn_roster.head? = some "END") := by
  intro fuel
  induction fuel with
  | zero => intro k state _ hlen; exact absurd hlen (Nat.not_lt_zero _)
  | succ fuel ih =>
    intro k state hvalid hlen
    match hr : state.turn_roster with
    | [] =>
      refine ⟨state, 0, ?_, Nat.zero_le _, Or.inl hr⟩
      unfold run_main_loop
      have hcr : conditional_router state = .endTurn := by
        unfold conditional_router; rw [hr]
      rw [hcr]
    | speaker :: rest =>
      by_cases hsp : speaker = "END"
      · refine ⟨state, 0, ?_, Nat.zero_le _, Or.inr (by rw [hr, hsp]; rfl)⟩
        unfold run_main_loop
        have hcr : conditional_router state = .endTurn := by
          unfold conditional_router; rw [hr]; simp [hsp]
        rw [hcr]
      · have hcfg : ∃ s ∈ state.stakeholders, s.role = speaker := by
          rcases hvalid speaker (by rw [hr]; exact List.mem_cons_self _ _) with h | h
          · exact absurd h hsp
          · exact h
        have hcr : conditional_router state = .agentTurn := by
          unfold conditional_router; rw [hr]
          simp [hsp]
        have hok := agent_node_ok (oracles.agent k) state speaker rest hr hcfg
        set state1 : GraphState :=
          { state with
            dialogue_history := (generate_agent_response (oracles.agent k) state).dialogue_history,
            turn_roster := rest } with hstate1
        set state2 := post_agent_step (oracles.conflict k) state1 with hstate2
        have hpres := post_agent_step_preserves (oracles.conflict k) state1
        have hroster2 : state2.turn_roster = rest := by
          rw [hstate2, hpres.1]
        have hstake2 : state2.stakeholders = state.stakeholders := by
          rw [hstate2, hpres.2]
        have hvalid2 : ∀ r ∈ state2.turn_roster, r = "END" ∨
            ∃ s ∈ state2.stakeholders, s.role = r := by
          intro r hmem
          rw [hroster2] at hmem
          rw [hstake2]
          exact hvalid r (by rw [hr]; exact List.mem_cons_of_mem _ hmem)
        have hlen2 : state2.turn_roster.length < fuel := by
          rw [hroster2]
          have : (speaker :: rest).length < fuel + 1 := by rw [← hr]; exact hlen
          simpa using this
        obtain ⟨finalState, n, heq, hn, hterm⟩ := ih (k + 1) state2 hvalid2 hlen2
        refine ⟨finalState, n + 1, ?_, ?_, hterm⟩
        · unfold run_main_loop
          rw [hcr, hok]
          simp only []
          rw [← hstate2, heq]
        · rw [hroster2] at hn
          simpa using Nat.succ_le_succ hn

/-- Every roster a successful routing call can return is either the full
official role list, the END sentinel, or a fuzzy-match result. -/
theorem get_routing_choice_roster_cases (oracle : Except String RouterResponse)
    (state : GraphState) (rc : RoutingChoice) (calls : Nat)
    (h : get_routing_choice oracle state = .ok (rc, calls)) :
    rc.roster = state.stakeholders.map StakeholderConfig.role ∨
    rc.roster = ["END"] ∨
    ∃ rv : RosterValue,
      rc.roster =
        fuzzyMatch (splitChoices rv) (state.stakeholders.map StakeholderConfig.role) := by
  simp only [get_routing_choice] at h
  split at h
  · exact Except.noConfusion h
  · split at h
    · simp only [Except.ok.injEq, Prod.mk.injEq] at h
      exact Or.inl (by rw [← h.1])
    · split at h
      · simp only [Except.ok.injEq, Prod.mk.injEq] at h
        exact Or.inr (Or.inl (by rw [← h.1]))
      · split at h
        · simp only [Except.ok.injEq, Prod.mk.injEq] at h
          exact Or.inr (Or.inl (by rw [← h.1]))
        · split at h
          · simp only [Except.ok.injEq, Prod.mk.injEq] at h
            exact Or.inr (Or.inl (by rw [← h.1]))
          · split at h
            · simp only [Except.ok.injEq, Prod.mk.injEq] at h
              exact Or.inr (Or.inl (by rw [← h.1]))
            · simp only [Except.ok.injEq, Prod.mk.injEq] at h
              exact Or.inr (Or.inr ⟨_, by rw [← h.1]⟩)

/-- C1: when the roster head has no matching StakeholderConfig,
generate_agent_response does append the system-role error message to the
dialogue history, but it does NOT pop the roster: the update dict it returns
carries no turn_roster key at all (modelled as `none`), so the roster is left
unchanged — contradicting the pop-regardless rule of the claim. Evaluated at
the concrete failing input `c1_state` (roster ["Ghost Stakeholder"], no
stakeholders configured). -/
theorem c1_config_failure_roster_not_popped :
    (generate_agent_response (.ok "a reply") c1_state).turn_roster = none ∧
    (generate_agent_response (.ok "a reply") c1_state).dialogue_history =
      c1_state.dialogue_history ++
        [⟨"system", "System Error: Could not find configuration for stakeholder " ++
          sq ++ "Ghost Stakeholder" ++ sq ++ "."⟩] :=
  ⟨rfl, rfl⟩

/-- C2 counterexample: for the initial roster ["Ghost Stakeholder"] of length
N = 1 whose entry has no stakeholder configuration, one pass of the
discussion loop leaves the roster unshortened and the loop never returns a
terminal state (the agent node errors on the missing turn_roster key), even
though every completion-service call succeeds — refuting termination in at
most N agent_turn transitions for arbitrary initial rosters. -/
theorem c2_counterexample :
    ¬ ∃ finalState n,
        run_main_loop c2_oracles 3 0 c2_bad_state = .ok (finalState, n) := by
  intro h
  obtain ⟨finalState, n, h⟩ := h
  have h2 : run_main_loop c2_oracles 3 0 c2_bad_state =
      .error "KeyError: turn_roster" := rfl
  rw [h2] at h
  exact Except.noConfusion h

/-- C2 (amended): for every initial roster each of whose entries is the
sentinel "END" or the role of a configured stakeholder, the discussion loop
reaches the terminal state using at most one agent_turn transition per roster
entry, regardless of which completion-service calls fail; and every roster a
successful Turn Router call seeds satisfies exactly that condition. -/
theorem c2_amended_liveness :
    (∀ (oracles : TurnOracles) (state : GraphState) (fuel : Nat),
      (∀ r ∈ state.turn_roster, r = "END" ∨ ∃ s ∈ state.stakeholders, s.role = r) →
      state.turn_roster.length < fuel →
      ∃ finalState n, run_main_loop oracles fuel 0 state = .ok (finalState, n) ∧
        n ≤ state.turn_roster.length ∧
        (finalState.turn_roster = [] ∨ finalState.turn_roster.head? = some "END")) ∧
    (∀ (oracle : Except String RouterResponse) (state : GraphState)
        (rc : RoutingChoice) (calls : Nat),
      get_routing_choice oracle state = .ok (rc, calls) →
      ∀ r ∈ rc.roster, r = "END" ∨ ∃ s ∈ state.stakeholders, s.role = r) := by
  constructor
  · intro oracles state fuel hvalid hlen
    exact run_main_loop_ok oracles fuel 0 state hvalid hlen
  · intro oracle state rc calls h r hr
    rcases get_routing_choice_roster_cases oracle state rc calls h with
      hc | hc | ⟨rv, hc⟩
    · rw [hc] at hr
      obtain ⟨s, hs, hrole⟩ := List.mem_map.mp hr
      exact Or.inr ⟨s, hs, hrole⟩
    · rw [hc] at hr
      simp only [List.mem_singleton] at hr
      exact Or.inl hr
    · rw [hc] at hr
      obtain ⟨hmem, -⟩ := (mem_fuzzyMatch _ _ _).mp hr
      obtain ⟨s, hs, hrole⟩ := List.mem_map.mp hmem
      exact Or.inr ⟨s, hs, hrole⟩

/-- Witness for the amended C2: a roster of length 1 naming the configured
Librarian terminates in at most one agent_turn transition even when every
completion call fails. -/
theorem c2_amended_liveness_witness :
    ∃ finalState n,
      run_main_loop c2_failing_oracles 2 0 c2_good_state = .ok (finalState, n) ∧
      n ≤ c2_good_state.turn_roster.length ∧
      (finalState.turn_roster = [] ∨ finalState.turn_roster.head? = some "END") :=
  c2_amended_liveness.1 c2_failing_oracles c2_good_state 2 (by decide) (by decide)

/-- C9: given the human message "hi everyone" and stakeholders
["Librarian", "IT Security"], the Turn Router returns the entire official
role list in configured order with is_concluding = false and makes zero
completion-service calls — the result does not depend on the oracle at
all. -/
theorem c9_broadcast_rule :
    ∀ oracle : Except String RouterResponse,
      get_routing_choice oracle c9_state =
        .ok (⟨["Librarian", "IT Security"], false⟩, 0) :=
  fun _oracle => rfl

/-- C3 counterexample: the fuzzy matcher tests substring containment in one
direction only (candidate-in-role). For the candidate
"The Head Librarian of the university", which contains the official role
"Head Librarian" (the role-in-candidate direction the claim also accepts),
the code finds no match and fails the turn closed with roster ["END"] instead
of resolving the candidate to the role. -/
theorem c3_counterexample :
    pyIn (pyLower "Head Librarian")
        (pyLower "The Head Librarian of the university") = true ∧
    fuzzyMatch ["The Head Librarian of the university"] ["Head Librarian"] = [] ∧
    get_routing_choice c3_oracle c3_state = .ok (⟨["END"], true⟩, 1) :=
  ⟨rfl, rfl, rfl⟩

/-- C3 (amended): a candidate resolves to an official role through a
case-insensitive substring test in the candidate-contained-in-role direction
only, with duplicates removed and first-seen order preserved; the claim
example still holds: candidates "IT Security, Librarian" against official
roles ["Head Librarian", "Director of IT Security"] yield the validated
roster ["Director of IT Security", "Head Librarian"]. -/
theorem c3_amended_fuzzy_matching :
    (∀ (choices roles : List String) (r : String),
      r ∈ fuzzyMatch choices roles ↔
        r ∈ roles ∧ ∃ c ∈ choices, pyIn (pyLower c) (pyLower r) = true) ∧
    (∀ choices roles : List String, (fuzzyMatch choices roles).Nodup) ∧
    get_routing_choice c3_example_oracle c3_example_state =
      .ok (⟨["Director of IT Security", "Head Librarian"], false⟩, 1) :=
  ⟨mem_fuzzyMatch, nodup_fuzzyMatch, rfl⟩

/-- When the difficulty is not the expert tier and there is at least one
elicited requirement, a successful conflict check returns the parsed service
response verbatim. -/
theorem conflict_check_passthrough (state : GraphState)
    (response : List (String × ConflictEntry))
    (hdiff : state.difficulty_level.getD "Easy (Tutor Mode)" ≠ "Hard (Expert Mode)")
    (hne : state.elicited_requirements ≠ []) :
    conflict_check_agent (.ok response) state = response := by
  simp only [conflict_check_agent]
  rw [if_neg (by simp [hdiff])]
  cases hr : state.elicited_requirements with
  | nil => exact absurd hr hne
  | cons a l => rfl

/-- C4 counterexample: at "Medium (Hint Mode)" the Conflict Checker returns
the parsed service response unchanged, so when the service supplies a
non-empty reason for a "Disputed" entry, that reason survives in the result
— suppression is not forced by the Checker. -/
theorem c4_counterexample :
    conflict_check_agent c4_oracle c4_state =
      [("The button must be green",
          ⟨"Disputed", "conflicts with the blue button requirement"⟩),
       ("The button must be blue",
          ⟨"Disputed", "conflicts with the green button requirement"⟩)] ∧
    ("conflicts with the blue button requirement" : String) ≠ "" :=
  ⟨rfl, by decide⟩

/-- C4 (amended): at "Medium (Hint Mode)" the empty-reason rule is only an
instruction placed in the completion prompt; the Checker itself returns the
parsed service response unchanged, so reason emptiness is requested of the
service, not enforced on the returned negotiation status. -/
theorem c4_amended_hint_mode :
    reason_instruction "Medium (Hint Mode)" =
      "For \"Disputed\" status, the reason must be an empty string \"\"." ∧
    ∀ (state : GraphState) (response : List (String × ConflictEntry)),
      state.difficulty_level.getD "Easy (Tutor Mode)" = "Medium (Hint Mode)" →
      state.elicited_requirements ≠ [] →
      conflict_check_agent (.ok response) state = response := by
  refine ⟨rfl, ?_⟩
  intro state response hdiff hne
  exact conflict_check_passthrough state response (by rw [hdiff]; decide) hne

/-- Witness for the amended C4: at the concrete hint-mode state, a response
with a non-empty Disputed reason is passed through verbatim. -/
theorem c4_amended_hint_mode_witness :
    conflict_check_agent
        (.ok [("The button must be green",
          ⟨"Disputed", "conflicts with the blue button requirement"⟩)]) c4_state =
      [("The button must be green",
        ⟨"Disputed", "conflicts with the blue button requirement"⟩)] :=
  c4_amended_hint_mode.2 c4_state _ rfl (by decide)

/-- C5 counterexample: the Conflict Checker does not validate the key set of
a successful service response against the requirement list. For requirement
list ["The system must support dark mode"], a response keyed by
"A completely unrelated key" is returned verbatim: the requirement string is
missing from the keys and an extra key is present. -/
theorem c5_counterexample :
    conflict_check_agent c5_oracle c5_state =
      [("A completely unrelated key", ⟨"Agreed", ""⟩)] ∧
    ¬ ("The system must support dark mode" ∈
        (conflict_check_agent c5_oracle c5_state).map Prod.fst) ∧
    ("A completely unrelated key" ∈
        (conflict_check_agent c5_oracle c5_state).map Prod.fst) :=
  ⟨rfl, by decide, by decide⟩

/-- C5 (amended): assuming a successful call at a non-expert difficulty, the
Checker returns exactly the parsed service response (for empty R it returns
the empty mapping without a call), so the returned key set equals the set of
requirement strings in R exactly when the service response honors the key
contract stated in the prompt — the Checker itself does not enforce it. -/
theorem c5_amended_key_space :
    ∀ (state : GraphState) (response : List (String × ConflictEntry)),
      state.difficulty_level.getD "Easy (Tutor Mode)" ≠ "Hard (Expert Mode)" →
      (state.elicited_requirements = [] →
        conflict_check_agent (.ok response) state = []) ∧
      (state.elicited_requirements ≠ [] →
        conflict_check_agent (.ok response) state = response ∧
        ((conflict_check_agent (.ok response) state).map Prod.fst =
            state.elicited_requirements.map Requirement.requirement ↔
          response.map Prod.fst =
            state.elicited_requirements.map Requirement.requirement)) := by
  intro state response hdiff
  constructor
  · intro hnil
    simp only [conflict_check_agent]
    rw [if_neg (by simp [hdiff]), hnil]
  · intro hne
    have hpass := conflict_check_passthrough state response hdiff hne
    exact ⟨hpass, by rw [hpass]⟩

/-- Witness for the amended C5: at the concrete tutor-mode state, the empty
requirement list yields the empty mapping, and a compliant response keyed by
the single requirement yields exactly that key set. -/
theorem c5_amended_key_space_witness :
    conflict_check_agent
        (.ok [("The system must support dark mode", ⟨"Agreed", ""⟩)]) c5_state =
      [("The system must support dark mode", ⟨"Agreed", ""⟩)] ∧
    (conflict_check_agent
        (.ok [("The system must support dark mode", ⟨"Agreed", ""⟩)]) c5_state).map
        Prod.fst =
      c5_state.elicited_requirements.map Requirement.requirement :=
  ⟨((c5_amended_key_space c5_state _ (by decide)).2 (by decide)).1,
   (((c5_amended_key_space c5_state _ (by decide)).2 (by decide)).2).mpr (by decide)⟩

/-- C6: if the completion call (or the parse of its content) raises during
ambiguity scoring, the scorer absorbs the exception: it returns the state
(never re-raises), sets the current score to 10, sets the reason to a failure
description carrying the exception text, and appends exactly one new entry
equal to 10 to the ambiguity history. -/
theorem c6_ambiguity_fail_open :
    ∀ (state : GraphState) (last : Msg) (e : String),
      state.dialogue_history.getLast? = some last →
      ambiguity_scorer_agent (.error e) state =
        .ok { state with
          current_ambiguity_score := some 10,
          ambiguity_score_reason := "An error occurred during analysis: " ++ e,
          ambiguity_history := some (state.ambiguity_history.getD [] ++ [10]) } := by
  intro state last e hlast
  simp only [ambiguity_scorer_agent]
  rw [hlast]

/-- Witness for C6: a concrete failing ambiguity call at a state with prior
history [4] yields score 10, the failure reason, and history [4, 10]. -/
theorem c6_ambiguity_fail_open_witness :
    ambiguity_scorer_agent (.error "connection reset") c6_state =
      .ok { c6_state with
        current_ambiguity_score := some 10,
        ambiguity_score_reason := "An error occurred during analysis: connection reset",
        ambiguity_history := some [4, 10] } :=
  c6_ambiguity_fail_open c6_state
    ⟨"student", "what are the security requirements"⟩ "connection reset" rfl

/-- C7: on the LLM routing path (latest message not a broadcast greeting),
every failure mode — the completion call raising, the JSON unparsable (both
modelled by the error oracle), the roster value absent or empty, or no
candidate fuzzy-matching any official role — returns roster ["END"] with
is_concluding = true. -/
theorem c7_routing_failure_closed :
    ∀ (state : GraphState) (oracle : Except String RouterResponse) (last : Msg),
      state.dialogue_history.getLast? = some last →
      broadcastCheck last.content = false →
      ((∃ e, oracle = .error e) ∨
       (∃ response_data, oracle = .ok response_data ∧
         (response_data.roster = none ∨
          (∃ rv, response_data.roster = some rv ∧
            (rv.falsy = true ∨
             fuzzyMatch (splitChoices rv)
               (state.stakeholders.map StakeholderConfig.role) = []))))) →
      get_routing_choice oracle state = .ok (⟨["END"], true⟩, 1) := by
  intro state oracle last hlast hb hfail
  simp only [get_routing_choice]
  rw [hlast]
  dsimp only
  rw [if_neg (by simp [hb])]
  rcases hfail with ⟨e, rfl⟩ | ⟨resp, rfl, hcase⟩
  · rfl
  · dsimp only
    rcases hcase with hnone | ⟨rv, hrv, hcase2⟩
    · rw [hnone]
    · rw [hrv]
      dsimp only
      by_cases hf : rv.falsy = true
      · rw [if_pos hf]
      · rw [if_neg hf]
        rcases hcase2 with hfalsy | hempty
        · exact absurd hfalsy hf
        · simp [hempty]

/-- Witness for C7: with a non-greeting latest message and a failing
completion call, the Router ends the turn. -/
theorem c7_routing_failure_closed_witness :
    get_routing_choice (.error "service down") c7_state = .ok (⟨["END"], true⟩, 1) :=
  c7_routing_failure_closed c7_state _ ⟨"student", "what is the budget"⟩ rfl
    (by decide) (Or.inl ⟨"service down", rfl⟩)

/-- C8: at difficulty "Hard (Expert Mode)" the graph enters at the router
(the ambiguity check never runs), the post-agent edge returns control
directly to the loop controller without entering conflict_check, and
conflict_check_agent, if invoked, returns the input negotiation status
unchanged for any completion outcome. -/
theorem c8_expert_mode :
    ∀ state : GraphState,
      state.difficulty_level = some "Hard (Expert Mode)" →
      conditional_entry_router state = EntryTarget.router ∧
      post_agent_router state = PostAgentTarget.main_loop_router ∧
      ∀ oracle, conflict_check_agent oracle state = state.negotiation_status := by
  intro state h
  refine ⟨?_, ?_, ?_⟩
  · simp [conditional_entry_router, h]
  · simp [post_agent_router, h]
  · intro oracle
    simp [conflict_check_agent, h]

/-- Witness for C8: the three expert-mode facts at the concrete expert
state. -/
theorem c8_expert_mode_witness :
    conditional_entry_router c8_state = EntryTarget.router ∧
    post_agent_router c8_state = PostAgentTarget.main_loop_router ∧
    ∀ oracle, conflict_check_agent oracle c8_state = c8_state.negotiation_status :=
  c8_expert_mode c8_state rfl

/-- C10: the broadcast bypass triggers on substring containment: whenever the
lowercased, trimmed latest message contains any of the eight greeting phrases
anywhere, the Router returns the full stakeholder role list with
is_concluding = false and zero completion-service calls; and the trigger
condition is exactly phrase containment or literal equality with one of the
bare words "hi", "hello", "hey". -/
theorem c10_broadcast_substring :
    (∀ (state : GraphState) (oracle : Except String RouterResponse) (last : Msg),
      state.dialogue_history.getLast? = some last →
      (∃ g ∈ general_greetings, pyIn g (pyStrip (pyLower last.content)) = true) →
      get_routing_choice oracle state =
        .ok (⟨state.stakeholders.map StakeholderConfig.role, false⟩, 0)) ∧
    (∀ content : String,
      broadcastCheck content = true ↔
        ((∃ g ∈ general_greetings, pyIn g (pyStrip (pyLower content)) = true) ∨
         pyStrip (pyLower content) ∈ ["hi", "hello", "hey"])) := by
  constructor
  · intro state oracle last hlast hex
    have hb : broadcastCheck last.content = true := by
      simp only [broadcastCheck, Bool.or_eq_true, List.any_eq_true]
      exact Or.inl hex
    simp only [get_routing_choice]
    rw [hlast]
    dsimp only
    rw [if_pos hb]
  · intro content
    simp only [broadcastCheck, Bool.or_eq_true, List.any_eq_true, List.elem_iff]

/-- Witness for C10: the message "IT Security, how are you planning to secure
the API?" contains the phrase "how are you", so the Router broadcasts to the
full role list with zero completion calls even though the oracle would
fail. -/
theorem c10_broadcast_substring_witness :
    get_routing_choice c10_oracle c10_state =
      .ok (⟨["Librarian", "IT Security"], false⟩, 0) :=
  c10_broadcast_substring.1 c10_state c10_oracle
    ⟨"student", "IT Security, how are you planning to secure the API?"⟩ rfl
    ⟨"how are you", by decide, by decide⟩

end REClassroom
